import Mathlib

/-
  Verification development for the go-gem/log leveled logging package
  (src/log.go), shallowly embedded in Lean 4.

  Modelling conventions:
  * Go byte slices and strings are `List Nat` with entries in 0..255
    (47 = slash, 58 = colon, 46 = dot, 32 = space, 10 = newline, 48 = digit 0).
  * Go `int` is `Int`; Go `/` on int is truncating division `Int.tdiv`;
    Go `byte(x)` is `(x % 256).toNat` (`%` on Int is the nonnegative
    euclidean remainder, which agrees with Go's low-8-bit truncation).
  * Go `time.Time` is a pair of date/clock views (local and UTC), since the
    formatter only ever consults `Date()`, `Clock()` and `Nanosecond()`
    after optionally switching to the UTC view.
  * `io.Writer` references are opaque identifiers (`Nat`); the state of the
    sink object a logger points to is threaded separately as a `Writer`,
    which records the byte payload of every Write call and answers each
    call with an error chosen by an oracle function `res`.
  * `runtime.Caller` is an oracle argument `caller : Option (List Nat × Int)`
    (`none` models a failed lookup); the number of times it was consulted is
    reported in the result so that claims about call-site resolution can be
    stated.
  * `fmt.Sprint`/`Sprintf`/`Sprintln` are opaque: methods receive the
    already-formatted message, and the result records how many times the
    formatter would have run (0 when the severity gate returns early).
  * `os.Exit(1)` is modelled as an `exits` flag in the result.
-/

namespace GemLog

/-- Flag constants from src/log.go lines 36-42. -/
def Ldate : Nat := 1

/-- Flag: the time in the local time zone. -/
def Ltime : Nat := 2

/-- Flag: microsecond resolution; assumes Ltime. -/
def Lmicroseconds : Nat := 4

/-- Flag: full file name and line number. -/
def Llongfile : Nat := 8

/-- Flag: final file name element and line number; overrides Llongfile. -/
def Lshortfile : Nat := 16

/-- Flag: use UTC rather than the local time zone. -/
def LUTC : Nat := 32

/-- Initial flags for the standard logger. -/
def LstdFlags : Nat := Ldate ||| Ltime

/-- Level constants from src/log.go lines 49-55. -/
def LevelDebug : Nat := 1

/-- Level bit for Info. -/
def LevelInfo : Nat := 2

/-- Level bit for Warning. -/
def LevelWarning : Nat := 4

/-- Level bit for Error. -/
def LevelError : Nat := 8

/-- Level bit for Fatal. -/
def LevelFatal : Nat := 16

/-- Union of all level bits. -/
def LevelAll : Nat := LevelDebug ||| LevelInfo ||| LevelWarning ||| LevelError ||| LevelFatal

/-- Severity label strings from src/log.go lines 60-65 (the source calls
them prefixDebug etc.); "DEBU " as bytes. -/
def preDebug : List Nat := [68, 69, 66, 85, 32]

/-- Bytes of "INFO ". -/
def preInfo : List Nat := [73, 78, 70, 79, 32]

/-- Bytes of "WARN ". -/
def preWarning : List Nat := [87, 65, 82, 78, 32]

/-- Bytes of "ERRO ". -/
def preError : List Nat := [69, 82, 82, 79, 32]

/-- Bytes of "FATA ". -/
def preFatal : List Nat := [70, 65, 84, 65, 32]

/-- Bytes of the empty label (the source's prefixEmpty). -/
def preEmpty : List Nat := []

/-- Loop of `itoa` (src/log.go lines 103-117): assemble a decimal in reverse
order.  Each Go iteration writes `byte(48 + i - i/10*10)` one cell to the
left; here the cells written so far are the accumulator list, so the final
`b[bp:]` is the accumulator after the post-loop write of `byte(48 + i)`.
Go division on int truncates toward zero, hence `Int.tdiv`. -/
def itoaLoop (i wid : Int) (acc : List Nat) : List Nat :=
  if i ≥ 10 ∨ wid > 1 then
    itoaLoop (i.tdiv 10) (wid - 1) ((((48 + i - i.tdiv 10 * 10) % 256).toNat) :: acc)
  else
    ((48 + i) % 256).toNat :: acc
termination_by i.toNat + (wid - 1).toNat
decreasing_by
  all_goals {
    have h1 : i.tdiv 10 = -((-i).tdiv 10) := by rw [← Int.neg_tdiv, neg_neg]
    rcases Int.lt_or_le i 0 with hneg | hpos
    · have h2 : (-i).tdiv 10 = (-i) / 10 := Int.tdiv_eq_ediv (by omega) (by norm_num)
      omega
    · have h2 : i.tdiv 10 = i / 10 := Int.tdiv_eq_ediv hpos (by norm_num)
      omega
  }

/-- Cheap integer to fixed-width decimal ASCII (src/log.go lines 102-117);
appending to `buf` as the Go code does through the slice pointer. -/
def itoa (buf : List Nat) (i wid : Int) : List Nat :=
  buf ++ itoaLoop i wid []

/-- Date and clock components as Go's Date(), Clock() and Nanosecond()
return them for one fixed time-zone view. -/
structure DateTime where
  year : Int
  month : Int
  day : Int
  hour : Int
  minute : Int
  sec : Int
  nsec : Int
deriving Repr, DecidableEq

/-- A time.Time value, reduced to the two views the formatter can consult:
the local view and the one t.UTC() switches to. -/
structure GoTime where
  loc : DateTime
  utc : DateTime
deriving Repr, DecidableEq

/-- Loop of the Lshortfile branch in formatHeader (src/log.go lines
151-156): scan indices len-1 down to 1 (index 0 is never examined, the Go
loop condition is i > 0) and cut after the first slash found. -/
def shortLoop (file : List Nat) : Nat → List Nat
  | 0 => file
  | i + 1 => if file.getD (i + 1) 0 = 47 then file.drop (i + 2) else shortLoop file i

/-- The file-shortening computation: `short := file; for i := len(file)-1;
i > 0; i-- ...; file = short`. -/
def shortFile (file : List Nat) : List Nat :=
  shortLoop file (file.length - 1)

/-- Go's l.formatHeader (src/log.go lines 119-164), appending to `buf`.
The flag field of the logger is passed explicitly. -/
def formatHeader (flag : Nat) (buf pre : List Nat) (t : GoTime) (file : List Nat)
    (line : Int) : List Nat :=
  let buf1 := buf ++ pre
  let d := if flag &&& LUTC ≠ 0 then t.utc else t.loc
  let buf2 :=
    if flag &&& (Ldate ||| Ltime ||| Lmicroseconds) ≠ 0 then
      let bufD :=
        if flag &&& Ldate ≠ 0 then
          itoa (itoa (itoa buf1 d.year 4 ++ [47]) d.month 2 ++ [47]) d.day 2 ++ [32]
        else buf1
      if flag &&& (Ltime ||| Lmicroseconds) ≠ 0 then
        let bufT := itoa (itoa (itoa bufD d.hour 2 ++ [58]) d.minute 2 ++ [58]) d.sec 2
        (if flag &&& Lmicroseconds ≠ 0 then itoa (bufT ++ [46]) (d.nsec.tdiv 1000) 6
         else bufT) ++ [32]
      else bufD
    else buf1
  if flag &&& (Lshortfile ||| Llongfile) ≠ 0 then
    let file2 := if flag &&& Lshortfile ≠ 0 then shortFile file else file
    itoa (buf2 ++ file2 ++ [58]) line (-1) ++ [58, 32]
  else buf2

/-- State of one io.Writer object: the byte payload of every Write call so
far, and an oracle giving the error each Write call returns for a given
payload. -/
structure Writer where
  history : List (List Nat)
  res : List Nat → Option (List Nat)

/-- One Write call: records the payload and returns the oracle's error. -/
def Writer.write (w : Writer) (p : List Nat) : Writer × Option (List Nat) :=
  ({ w with history := w.history ++ [p] }, w.res p)

/-- The Logger struct (src/log.go lines 77-83).  The mutex only serializes
access and has no sequential content; `out` holds an opaque reference to
the sink object whose state is threaded separately. -/
structure Logger where
  level : Nat
  flag : Nat
  out : Nat
  buf : List Nat
deriving Repr, DecidableEq

/-- New (src/log.go lines 89-91). -/
def New (out flag level : Nat) : Logger :=
  { out := out, flag := flag, level := level, buf := [] }

/-- Logger.ignore (src/log.go lines 69-71). -/
def Logger.ignore (l : Logger) (level : Nat) : Bool :=
  l.level &&& level == 0

/-- Result of Logger.Output: the updated logger and sink, the returned
error, and how many times runtime.Caller was consulted. -/
structure OutputRes where
  logger : Logger
  writer : Writer
  err : Option (List Nat)
  callerCalls : Nat

/-- Call-site resolution step of Logger.Output (src/log.go lines 174-188).
The argument `caller` is the runtime.Caller oracle (`none` = lookup
failed, giving the "???"/0 fallback); when the file flags are clear, file
and line keep their Go zero values "" and 0 and the oracle is never
consulted.  The second component counts the runtime.Caller invocations. -/
def resolveCaller (flag : Nat) (caller : Option (List Nat × Int)) : (List Nat × Int) × Nat :=
  if flag &&& (Lshortfile ||| Llongfile) ≠ 0 then
    match caller with
    | some c => (c, 1)
    | none => (([63, 63, 63], (0 : Int)), 1)
  else (([], (0 : Int)), 0)

/-- Logger.Output continued (src/log.go lines 189-196): truncate the
scratch buffer, render header and body, terminate the line, write once. -/
def Logger.Output (l : Logger) (w : Writer) (now : GoTime)
    (caller : Option (List Nat × Int)) (s pre : List Nat) : OutputRes :=
  let fl := resolveCaller l.flag caller
  let buf1 := formatHeader l.flag [] pre now fl.1.1 fl.1.2
  let buf2 := buf1 ++ s
  let buf3 := if s.length = 0 ∨ s.getLast? ≠ some 10 then buf2 ++ [10] else buf2
  let wr := w.write buf3
  { logger := { l with buf := buf3 }, writer := wr.1, err := wr.2, callerCalls := fl.2 }

/-- What a Go function hands back to its caller: no results (a void
function) or a single error result. -/
inductive GoRet where
  | void
  | err (e : Option (List Nat))
deriving Repr, DecidableEq

/-- Result of a severity-named logging method: updated logger and sink,
the method's own return to its caller, how many times fmt.Sprint-style
formatting ran, how many times runtime.Caller was consulted, and whether
os.Exit was reached. -/
structure EmitRes where
  logger : Logger
  writer : Writer
  ret : GoRet
  fmtCalls : Nat
  callerCalls : Nat
  exits : Bool

/-- Common body of every severity-named Logger method (src/log.go lines
219-350): if l.ignore(bit) return; else l.Output(2, fmt.XXX(v...), pre).
The Go methods declare no results, so ret is void and the error Output
returns to the method is dropped; no method calls os.Exit. -/
def Logger.emitGated (l : Logger) (w : Writer) (bit : Nat) (pre : List Nat)
    (now : GoTime) (caller : Option (List Nat × Int)) (msg : List Nat) : EmitRes :=
  if l.ignore bit then
    { logger := l, writer := w, ret := .void, fmtCalls := 0, callerCalls := 0, exits := false }
  else
    let r := l.Output w now caller msg pre
    { logger := r.logger, writer := r.writer, ret := .void, fmtCalls := 1,
      callerCalls := r.callerCalls, exits := false }

/-- Logger.Debug (src/log.go lines 219-224); msg is the fmt.Sprint result. -/
def Logger.Debug (l : Logger) (w : Writer) (now : GoTime)
    (caller : Option (List Nat × Int)) (msg : List Nat) : EmitRes :=
  l.emitGated w LevelDebug preDebug now caller msg

/-- Logger.Debugf (src/log.go lines 228-233); msg is the fmt.Sprintf result. -/
def Logger.Debugf (l : Logger) (w : Writer) (now : GoTime)
    (caller : Option (List Nat × Int)) (msg : List Nat) : EmitRes :=
  l.emitGated w LevelDebug preDebug now caller msg

/-- Logger.Debugln (src/log.go lines 237-242); msg is the fmt.Sprintln result. -/
def Logger.Debugln (l : Logger) (w : Writer) (now : GoTime)
    (caller : Option (List Nat × Int)) (msg : List Nat) : EmitRes :=
  l.emitGated w LevelDebug preDebug now caller msg

/-- Logger.Info (src/log.go lines 246-251). -/
def Logger.Info (l : Logger) (w : Writer) (now : GoTime)
    (caller : Option (List Nat × Int)) (msg : List Nat) : EmitRes :=
  l.emitGated w LevelInfo preInfo now caller msg

/-- Logger.Infof (src/log.go lines 255-260). -/
def Logger.Infof (l : Logger) (w : Writer) (now : GoTime)
    (caller : Option (List Nat × Int)) (msg : List Nat) : EmitRes :=
  l.emitGated w LevelInfo preInfo now caller msg

/-- Logger.Infoln (src/log.go lines 264-269). -/
def Logger.Infoln (l : Logger) (w : Writer) (now : GoTime)
    (caller : Option (List Nat × Int)) (msg : List Nat) : EmitRes :=
  l.emitGated w LevelInfo preInfo now caller msg

/-- Logger.Warning (src/log.go lines 273-278). -/
def Logger.Warning (l : Logger) (w : Writer) (now : GoTime)
    (caller : Option (List Nat × Int)) (msg : List Nat) : EmitRes :=
  l.emitGated w LevelWarning preWarning now caller msg

/-- Logger.Warningf (src/log.go lines 282-287). -/
def Logger.Warningf (l : Logger) (w : Writer) (now : GoTime)
    (caller : Option (List Nat × Int)) (msg : List Nat) : EmitRes :=
  l.emitGated w LevelWarning preWarning now caller msg

/-- Logger.Warningln (src/log.go lines 291-296). -/
def Logger.Warningln (l : Logger) (w : Writer) (now : GoTime)
    (caller : Option (List Nat × Int)) (msg : List Nat) : EmitRes :=
  l.emitGated w LevelWarning preWarning now caller msg

/-- Logger.Error (src/log.go lines 300-305). -/
def Logger.Error (l : Logger) (w : Writer) (now : GoTime)
    (caller : Option (List Nat × Int)) (msg : List Nat) : EmitRes :=
  l.emitGated w LevelError preError now caller msg

/-- Logger.Errorf (src/log.go lines 309-314). -/
def Logger.Errorf (l : Logger) (w : Writer) (now : GoTime)
    (caller : Option (List Nat × Int)) (msg : List Nat) : EmitRes :=
  l.emitGated w LevelError preError now caller msg

/-- Logger.Errorln (src/log.go lines 318-323). -/
def Logger.Errorln (l : Logger) (w : Writer) (now : GoTime)
    (caller : Option (List Nat × Int)) (msg : List Nat) : EmitRes :=
  l.emitGated w LevelError preError now caller msg

/-- Logger.Fatal (src/log.go lines 327-332): gate, then Output; the method
body contains no os.Exit call. -/
def Logger.Fatal (l : Logger) (w : Writer) (now : GoTime)
    (caller : Option (List Nat × Int)) (msg : List Nat) : EmitRes :=
  l.emitGated w LevelFatal preFatal now caller msg

/-- Logger.Fatalf (src/log.go lines 336-341). -/
def Logger.Fatalf (l : Logger) (w : Writer) (now : GoTime)
    (caller : Option (List Nat × Int)) (msg : List Nat) : EmitRes :=
  l.emitGated w LevelFatal preFatal now caller msg

/-- Logger.Fatalln (src/log.go lines 345-350). -/
def Logger.Fatalln (l : Logger) (w : Writer) (now : GoTime)
    (caller : Option (List Nat × Int)) (msg : List Nat) : EmitRes :=
  l.emitGated w LevelFatal preFatal now caller msg

/-- Logger.Flags (src/log.go lines 374-378). -/
def Logger.Flags (l : Logger) : Nat :=
  l.flag

/-- Logger.SetFlags (src/log.go lines 381-385). -/
def Logger.SetFlags (l : Logger) (flag : Nat) : Logger :=
  { l with flag := flag }

/-- Logger.Levels (src/log.go lines 388-392). -/
def Logger.Levels (l : Logger) : Nat :=
  l.level

/-- Logger.SetLevels (src/log.go lines 395-399). -/
def Logger.SetLevels (l : Logger) (level : Nat) : Logger :=
  { l with level := level }

/-- Package-level Fatal (src/log.go lines 557-563): gate on the standard
logger, emit, then os.Exit(1).  The standard logger instance is passed
explicitly.  When the gate suppresses the message the function returns
before reaching os.Exit. -/
def Fatal (std : Logger) (w : Writer) (now : GoTime)
    (caller : Option (List Nat × Int)) (msg : List Nat) : EmitRes :=
  if std.ignore LevelFatal then
    { logger := std, writer := w, ret := .void, fmtCalls := 0, callerCalls := 0, exits := false }
  else
    let r := std.Output w now caller msg preFatal
    { logger := r.logger, writer := r.writer, ret := .void, fmtCalls := 1,
      callerCalls := r.callerCalls, exits := true }

/-- Package-level Fatalf (src/log.go lines 566-572). -/
def Fatalf (std : Logger) (w : Writer) (now : GoTime)
    (caller : Option (List Nat × Int)) (msg : List Nat) : EmitRes :=
  if std.ignore LevelFatal then
    { logger := std, writer := w, ret := .void, fmtCalls := 0, callerCalls := 0, exits := false }
  else
    let r := std.Output w now caller msg preFatal
    { logger := r.logger, writer := r.writer, ret := .void, fmtCalls := 1,
      callerCalls := r.callerCalls, exits := true }

/-- Package-level Fatalln (src/log.go lines 575-581). -/
def Fatalln (std : Logger) (w : Writer) (now : GoTime)
    (caller : Option (List Nat × Int)) (msg : List Nat) : EmitRes :=
  if std.ignore LevelFatal then
    { logger := std, writer := w, ret := .void, fmtCalls := 0, callerCalls := 0, exits := false }
  else
    let r := std.Output w now caller msg preFatal
    { logger := r.logger, writer := r.writer, ret := .void, fmtCalls := 1,
      callerCalls := r.callerCalls, exits := true }

/-- The five severities, for quantifying over the severity-named methods. -/
inductive Severity where
  | debug
  | info
  | warning
  | error
  | fatal
deriving Repr, DecidableEq

/-- Level bit of a severity. -/
def sevBit : Severity → Nat
  | .debug => LevelDebug
  | .info => LevelInfo
  | .warning => LevelWarning
  | .error => LevelError
  | .fatal => LevelFatal

/-- Label bytes of a severity. -/
def sevPre : Severity → List Nat
  | .debug => preDebug
  | .info => preInfo
  | .warning => preWarning
  | .error => preError
  | .fatal => preFatal

/-- The three message-construction variants each severity exposes
(fmt.Sprint, fmt.Sprintf, fmt.Sprintln). -/
inductive Variant where
  | plain
  | formatted
  | line
deriving Repr, DecidableEq

/-- Dispatch to the severity-named method for a severity and variant. -/
def Logger.methodAt (l : Logger) (w : Writer) (s : Severity) (v : Variant)
    (now : GoTime) (caller : Option (List Nat × Int)) (msg : List Nat) : EmitRes :=
  match s, v with
  | .debug, .plain => l.Debug w now caller msg
  | .debug, .formatted => l.Debugf w now caller msg
  | .debug, .line => l.Debugln w now caller msg
  | .info, .plain => l.Info w now caller msg
  | .info, .formatted => l.Infof w now caller msg
  | .info, .line => l.Infoln w now caller msg
  | .warning, .plain => l.Warning w now caller msg
  | .warning, .formatted => l.Warningf w now caller msg
  | .warning, .line => l.Warningln w now caller msg
  | .error, .plain => l.Error w now caller msg
  | .error, .formatted => l.Errorf w now caller msg
  | .error, .line => l.Errorln w now caller msg
  | .fatal, .plain => l.Fatal w now caller msg
  | .fatal, .formatted => l.Fatalf w now caller msg
  | .fatal, .line => l.Fatalln w now caller msg

/-- Date field of the header as an isolated computation: what the Ldate
branch of formatHeader appends, starting from an empty buffer. -/
def dateField (flag : Nat) (t : GoTime) : List Nat :=
  let d := if flag &&& LUTC ≠ 0 then t.utc else t.loc
  itoa (itoa (itoa [] d.year 4 ++ [47]) d.month 2 ++ [47]) d.day 2 ++ [32]

/-- Time field of the header as an isolated computation: what the
Ltime/Lmicroseconds branch of formatHeader appends, starting from an
empty buffer. -/
def timeField (flag : Nat) (t : GoTime) : List Nat :=
  let d := if flag &&& LUTC ≠ 0 then t.utc else t.loc
  let b := itoa (itoa (itoa [] d.hour 2 ++ [58]) d.minute 2 ++ [58]) d.sec 2
  (if flag &&& Lmicroseconds ≠ 0 then itoa (b ++ [46]) (d.nsec.tdiv 1000) 6 else b) ++ [32]

/-- File:line field of the header as an isolated computation: what the
Lshortfile/Llongfile branch of formatHeader appends, starting from an
empty buffer. -/
def fileField (flag : Nat) (file : List Nat) (line : Int) : List Nat :=
  (if flag &&& Lshortfile ≠ 0 then shortFile file else file)
    ++ [58] ++ itoaLoop line (-1) [] ++ [58, 32]

/-- Modelled from the spec: the final path segment as the spec words it,
the longest suffix after the last path separator 47, the full string when
no separator occurs.  (The code's own loop is shortFile; this definition
exists to compare the two.) -/
def specFinalSegment (file : List Nat) : List Nat :=
  (file.reverse.takeWhile (fun b => b ≠ 47)).reverse

/-- Non-zero-padded decimal digits of a natural number (a single 48 for
zero), most significant first. -/
def specDecimal (n : Nat) : List Nat :=
  if n < 10 then [48 + n] else specDecimal (n / 10) ++ [48 + n % 10]
termination_by n
decreasing_by omega

/-- Zero-padded decimal rendering of n to exactly w digits (the low w
digits of n), most significant first. -/
def specPadded : Nat → Nat → List Nat
  | 0, _ => []
  | w + 1, n => specPadded w (n / 10) ++ [48 + n % 10]

/-- Modelled from the spec: a byte sequence ends in exactly one newline,
i.e. its last byte is 10 and the byte before it (if any) is not. -/
def endsInOneNewline (bs : List Nat) : Prop :=
  bs.getLast? = some 10 ∧ bs.dropLast.getLast? ≠ some 10

/-- Fixture: a sink whose writes all succeed. -/
def W0 : Writer :=
  { history := [], res := fun _ => none }

/-- Fixture: a sink whose writes all fail with error bytes [69]. -/
def WE : Writer :=
  { history := [], res := fun _ => some [69] }

/-- Fixture: an all-zero timestamp. -/
def T0 : GoTime :=
  { loc := { year := 0, month := 0, day := 0, hour := 0, minute := 0, sec := 0, nsec := 0 },
    utc := { year := 0, month := 0, day := 0, hour := 0, minute := 0, sec := 0, nsec := 0 } }

/-- Fixture: a logger with no header flags and every severity enabled. -/
def L0 : Logger := New 0 0 LevelAll

/-- Fixture: a logger with no header flags and every severity disabled. -/
def LOFF : Logger := New 0 0 0

/-- A bitwise-or of naturals is zero exactly when both sides are. -/
theorem lor_eq_zero_iff (a b : Nat) : a ||| b = 0 ↔ a = 0 ∧ b = 0 := by
  constructor
  · intro h
    have ha : ∀ i, a.testBit i = false ∧ b.testBit i = false := by
      intro i
      have := congrArg (fun n => n.testBit i) h
      simpa [Nat.testBit_or] using this
    exact ⟨Nat.eq_of_testBit_eq fun i => by simp [(ha i).1],
           Nat.eq_of_testBit_eq fun i => by simp [(ha i).2]⟩
  · rintro ⟨rfl, rfl⟩
    rfl

/-- The combined date/time guard of formatHeader is the conjunction of the
date test and the time-or-microseconds test. -/
theorem and_dateTimeMask_eq_zero_iff (f : Nat) :
    f &&& (Ldate ||| Ltime ||| Lmicroseconds) = 0 ↔
      f &&& Ldate = 0 ∧ f &&& (Ltime ||| Lmicroseconds) = 0 := by
  have h : (Ldate ||| Ltime ||| Lmicroseconds) = Ldate ||| (Ltime ||| Lmicroseconds) := by decide
  rw [h, Nat.and_or_distrib_left, lor_eq_zero_iff]

/-- Output makes exactly one sink write, whose payload is the buffer it
leaves in the logger, and hands back exactly the error the sink produced
for that payload. -/
theorem Output_history (l : Logger) (w : Writer) (now : GoTime)
    (caller : Option (List Nat × Int)) (s pre : List Nat) :
    (l.Output w now caller s pre).writer.history
      = w.history ++ [(l.Output w now caller s pre).logger.buf] ∧
    (l.Output w now caller s pre).err
      = w.res ((l.Output w now caller s pre).logger.buf) := by
  simp [Logger.Output, Writer.write]

/-- The buffer Output builds: a header rendered from an empty buffer, the
body, and a newline exactly when the body is empty or does not end in one. -/
theorem Output_buf (l : Logger) (w : Writer) (now : GoTime)
    (caller : Option (List Nat × Int)) (s pre : List Nat) :
    (l.Output w now caller s pre).logger.buf
      = if s.length = 0 ∨ s.getLast? ≠ some 10
        then (formatHeader l.flag [] pre now (resolveCaller l.flag caller).1.1
                (resolveCaller l.flag caller).1.2 ++ s) ++ [10]
        else formatHeader l.flag [] pre now (resolveCaller l.flag caller).1.1
               (resolveCaller l.flag caller).1.2 ++ s := by
  simp only [Logger.Output]

/-- A gated-off severity method call is a complete no-op. -/
theorem emitGated_off (l : Logger) (w : Writer) (bit : Nat) (pre : List Nat)
    (now : GoTime) (caller : Option (List Nat × Int)) (msg : List Nat)
    (h : l.level &&& bit = 0) :
    l.emitGated w bit pre now caller msg =
      { logger := l, writer := w, ret := .void, fmtCalls := 0, callerCalls := 0,
        exits := false } := by
  simp [Logger.emitGated, Logger.ignore, h]

/-- A gated-on severity method call formats once and forwards to Output,
discarding its error. -/
theorem emitGated_on (l : Logger) (w : Writer) (bit : Nat) (pre : List Nat)
    (now : GoTime) (caller : Option (List Nat × Int)) (msg : List Nat)
    (h : l.level &&& bit ≠ 0) :
    l.emitGated w bit pre now caller msg =
      { logger := (l.Output w now caller msg pre).logger,
        writer := (l.Output w now caller msg pre).writer,
        ret := .void, fmtCalls := 1,
        callerCalls := (l.Output w now caller msg pre).callerCalls,
        exits := false } := by
  simp [Logger.emitGated, Logger.ignore, h]

/-- C9: setting the flags to X and reading them back yields X, and setting
the levels to X and reading them back yields X, with no other operation
interleaved. -/
theorem C9_config_roundtrip (l : Logger) (X : Nat) :
    (l.SetFlags X).Flags = X ∧ (l.SetLevels X).Levels = X :=
  ⟨rfl, rfl⟩

/-- C10: Output leaves the flag, level and out fields unchanged whatever
its arguments and the write outcome; only buf is mutated, its new value
does not depend on its old value (it is rebuilt after truncation to
empty), it is exactly the one written payload, and it starts with the
header rendered from the empty buffer. -/
theorem C10_output_frame (l : Logger) (w : Writer) (now : GoTime)
    (caller : Option (List Nat × Int)) (s pre b : List Nat) :
    (l.Output w now caller s pre).logger.flag = l.flag ∧
    (l.Output w now caller s pre).logger.level = l.level ∧
    (l.Output w now caller s pre).logger.out = l.out ∧
    (Logger.Output { l with buf := b } w now caller s pre).logger.buf
      = (l.Output w now caller s pre).logger.buf ∧
    (l.Output w now caller s pre).writer.history
      = w.history ++ [(l.Output w now caller s pre).logger.buf] ∧
    (l.Output w now caller s pre).logger.buf.take
        (formatHeader l.flag [] pre now (resolveCaller l.flag caller).1.1
          (resolveCaller l.flag caller).1.2).length
      = formatHeader l.flag [] pre now (resolveCaller l.flag caller).1.1
          (resolveCaller l.flag caller).1.2 := by
  refine ⟨rfl, rfl, rfl, rfl, (Output_history l w now caller s pre).1, ?_⟩
  rw [Output_buf]
  split
  · rw [List.append_assoc]
    exact List.take_left _ _
  · exact List.take_left _ _

/-- C2: a severity-named method writes one line to the sink iff the
logger's level mask contains the severity's bit; when gated off it is a
complete no-op: state and sink unchanged byte-for-byte, no formatting run,
no call-site resolution. -/
theorem C2_severity_gate (s : Severity) (v : Variant) (l : Logger) (w : Writer)
    (now : GoTime) (caller : Option (List Nat × Int)) (msg : List Nat) :
    (l.level &&& sevBit s = 0 →
      Logger.methodAt l w s v now caller msg =
        { logger := l, writer := w, ret := .void, fmtCalls := 0, callerCalls := 0,
          exits := false }) ∧
    (l.level &&& sevBit s ≠ 0 →
      (Logger.methodAt l w s v now caller msg).writer.history
          = w.history ++ [(l.Output w now caller msg (sevPre s)).logger.buf] ∧
      (Logger.methodAt l w s v now caller msg).fmtCalls = 1) := by
  constructor
  · intro h
    cases s <;> cases v <;>
      simp only [sevBit] at h <;>
      simp only [Logger.methodAt, Logger.Debug, Logger.Debugf, Logger.Debugln,
        Logger.Info, Logger.Infof, Logger.Infoln, Logger.Warning, Logger.Warningf,
        Logger.Warningln, Logger.Error, Logger.Errorf, Logger.Errorln,
        Logger.Fatal, Logger.Fatalf, Logger.Fatalln] <;>
      exact emitGated_off _ _ _ _ _ _ _ h
  · intro h
    cases s <;> cases v <;>
      simp only [sevBit] at h <;>
      simp only [Logger.methodAt, Logger.Debug, Logger.Debugf, Logger.Debugln,
        Logger.Info, Logger.Infof, Logger.Infoln, Logger.Warning, Logger.Warningf,
        Logger.Warningln, Logger.Error, Logger.Errorf, Logger.Errorln,
        Logger.Fatal, Logger.Fatalf, Logger.Fatalln, sevPre] <;>
      rw [emitGated_on _ _ _ _ _ _ _ h] <;>
      exact ⟨(Output_history l w now caller msg _).1, rfl⟩

/-- C2 witness: gated-off Debug on LOFF is a complete no-op; gated-on
Debug on L0 writes exactly one line. -/
theorem C2_severity_gate_witness :
    Logger.methodAt LOFF W0 .debug .plain T0 none [97] =
      { logger := LOFF, writer := W0, ret := .void, fmtCalls := 0, callerCalls := 0,
        exits := false } ∧
    ((Logger.methodAt L0 W0 .debug .plain T0 none [97]).writer.history
        = W0.history ++ [(Logger.Output L0 W0 T0 none [97] (sevPre .debug)).logger.buf] ∧
     (Logger.methodAt L0 W0 .debug .plain T0 none [97]).fmtCalls = 1) :=
  ⟨(C2_severity_gate .debug .plain LOFF W0 T0 none [97]).1 (by decide),
   (C2_severity_gate .debug .plain L0 W0 T0 none [97]).2 (by decide)⟩

/-- C4 counterexample: with every severity enabled and a sink that fails
with error bytes [69], Logger.Warning performs its single write and yet
hands nothing back to its caller (the Go method declares no results), so
the write error is not returned by the severity-named method to its direct
caller as the claim states. -/
theorem C4_counterexample :
    (Logger.Warning L0 WE T0 none [120]).ret = GoRet.void ∧
    WE.res [87, 65, 82, 78, 32, 120, 10] = some [69] ∧
    (Logger.Warning L0 WE T0 none [120]).writer.history
      = [[87, 65, 82, 78, 32, 120, 10]] ∧
    GoRet.void ≠ GoRet.err (some [69]) :=
  ⟨rfl, rfl, rfl, by decide⟩

/-- C4 amended: when the gate passes, the emission path makes exactly one
write attempt; Output returns the sink's error unmodified to its direct
caller (the severity-named method), and the method discards it and
returns nothing; nothing further is written, so the error is neither
retried nor itself logged. -/
theorem C4_write_error_path (s : Severity) (v : Variant) (l : Logger) (w : Writer)
    (now : GoTime) (caller : Option (List Nat × Int)) (msg : List Nat)
    (h : l.level &&& sevBit s ≠ 0) :
    (Logger.methodAt l w s v now caller msg).writer.history
        = w.history ++ [(l.Output w now caller msg (sevPre s)).logger.buf] ∧
    (l.Output w now caller msg (sevPre s)).err
        = w.res ((l.Output w now caller msg (sevPre s)).logger.buf) ∧
    (Logger.methodAt l w s v now caller msg).ret = GoRet.void := by
  refine ⟨?_, (Output_history l w now caller msg (sevPre s)).2, ?_⟩
  · cases s <;> cases v <;>
      simp only [sevBit] at h <;>
      simp only [Logger.methodAt, Logger.Debug, Logger.Debugf, Logger.Debugln,
        Logger.Info, Logger.Infof, Logger.Infoln, Logger.Warning, Logger.Warningf,
        Logger.Warningln, Logger.Error, Logger.Errorf, Logger.Errorln,
        Logger.Fatal, Logger.Fatalf, Logger.Fatalln, sevPre] <;>
      rw [emitGated_on _ _ _ _ _ _ _ h] <;>
      exact (Output_history l w now caller msg _).1
  · cases s <;> cases v <;>
      simp only [sevBit] at h <;>
      simp only [Logger.methodAt, Logger.Debug, Logger.Debugf, Logger.Debugln,
        Logger.Info, Logger.Infof, Logger.Infoln, Logger.Warning, Logger.Warningf,
        Logger.Warningln, Logger.Error, Logger.Errorf, Logger.Errorln,
        Logger.Fatal, Logger.Fatalf, Logger.Fatalln] <;>
      rw [emitGated_on _ _ _ _ _ _ _ h]

/-- C4 witness: the amended error path at a concrete failing sink. -/
theorem C4_write_error_path_witness :
    (Logger.methodAt L0 WE .warning .plain T0 none [120]).writer.history
        = WE.history ++ [(Logger.Output L0 WE T0 none [120] (sevPre .warning)).logger.buf] ∧
    (Logger.Output L0 WE T0 none [120] (sevPre .warning)).err
        = WE.res ((Logger.Output L0 WE T0 none [120] (sevPre .warning)).logger.buf) ∧
    (Logger.methodAt L0 WE .warning .plain T0 none [120]).ret = GoRet.void :=
  C4_write_error_path .warning .plain L0 WE T0 none [120] (by decide)

/-- C1 counterexample: with the Fatal bit enabled in the mask, the method
Logger.Fatal emits the line but does not terminate the process. -/
theorem C1_counterexample :
    L0.level &&& LevelFatal ≠ 0 ∧
    (Logger.Fatal L0 W0 T0 none [102]).writer.history
      = [[70, 65, 84, 65, 32, 102, 10]] ∧
    (Logger.Fatal L0 W0 T0 none [102]).exits = false :=
  ⟨by decide, rfl, rfl⟩

/-- C1 amended: only the package-level standard-logger functions Fatal,
Fatalf and Fatalln terminate the process, after performing normal
emission; the Logger methods Fatal, Fatalf and Fatalln emit and return
like every other severity's methods. -/
theorem C1_fatal_termination (l : Logger) (w : Writer) (now : GoTime)
    (caller : Option (List Nat × Int)) (msg : List Nat)
    (h : l.level &&& LevelFatal ≠ 0) :
    (Logger.Fatal l w now caller msg).exits = false ∧
    (Logger.Fatalf l w now caller msg).exits = false ∧
    (Logger.Fatalln l w now caller msg).exits = false ∧
    (Fatal l w now caller msg).writer = (l.Output w now caller msg preFatal).writer ∧
    (Fatal l w now caller msg).exits = true ∧
    (Fatalf l w now caller msg).exits = true ∧
    (Fatalln l w now caller msg).exits = true := by
  have hg : l.ignore LevelFatal = false := by
    simp [Logger.ignore, h]
  simp [Logger.Fatal, Logger.Fatalf, Logger.Fatalln, Fatal, Fatalf, Fatalln,
    Logger.emitGated, hg]

/-- Decomposition of formatHeader: label, then the three fields in fixed
order, each contributing zero bytes when its guard is clear. -/
theorem formatHeader_decomp (flag : Nat) (buf pre : List Nat) (t : GoTime)
    (file : List Nat) (line : Int) :
    formatHeader flag buf pre t file line =
      buf ++ pre
        ++ (if flag &&& Ldate ≠ 0 then dateField flag t else [])
        ++ (if flag &&& (Ltime ||| Lmicroseconds) ≠ 0 then timeField flag t else [])
        ++ (if flag &&& (Lshortfile ||| Llongfile) ≠ 0 then fileField flag file line else []) := by
  by_cases hd : flag &&& Ldate = 0 <;> by_cases ht : flag &&& (Ltime ||| Lmicroseconds) = 0 <;>
    by_cases hf : flag &&& (Lshortfile ||| Llongfile) = 0 <;>
    by_cases hm : flag &&& Lmicroseconds = 0 <;>
    simp [formatHeader, dateField, timeField, fileField, itoa,
      and_dateTimeMask_eq_zero_iff, hd, ht, hf, hm, List.append_assoc]

/-- Adding the Llongfile bit on top of Lshortfile changes none of the flag
tests the formatter performs except the combined file test, which stays
nonzero either way. -/
theorem flag_tests_shortlong (f : Nat) :
    ((f ||| Lshortfile ||| Llongfile) &&& Ldate = (f ||| Lshortfile) &&& Ldate) ∧
    ((f ||| Lshortfile ||| Llongfile) &&& (Ltime ||| Lmicroseconds)
        = (f ||| Lshortfile) &&& (Ltime ||| Lmicroseconds)) ∧
    ((f ||| Lshortfile ||| Llongfile) &&& Lmicroseconds = (f ||| Lshortfile) &&& Lmicroseconds) ∧
    ((f ||| Lshortfile ||| Llongfile) &&& LUTC = (f ||| Lshortfile) &&& LUTC) ∧
    ((f ||| Lshortfile ||| Llongfile) &&& Lshortfile = (f ||| Lshortfile) &&& Lshortfile) ∧
    ((f ||| Lshortfile ||| Llongfile) &&& (Lshortfile ||| Llongfile) ≠ 0) ∧
    ((f ||| Lshortfile) &&& (Lshortfile ||| Llongfile) ≠ 0) := by
  have a1 : (Lshortfile &&& Ldate : Nat) = 0 := by decide
  have a2 : (Llongfile &&& Ldate : Nat) = 0 := by decide
  have a3 : Lshortfile &&& (Ltime ||| Lmicroseconds) = 0 := by decide
  have a4 : Llongfile &&& (Ltime ||| Lmicroseconds) = 0 := by decide
  have a5 : (Lshortfile &&& Lmicroseconds : Nat) = 0 := by decide
  have a6 : (Llongfile &&& Lmicroseconds : Nat) = 0 := by decide
  have a7 : (Lshortfile &&& LUTC : Nat) = 0 := by decide
  have a8 : (Llongfile &&& LUTC : Nat) = 0 := by decide
  have a9 : (Lshortfile &&& Lshortfile : Nat) = Lshortfile := by decide
  have a10 : (Llongfile &&& Lshortfile : Nat) = 0 := by decide
  have a11 : Lshortfile &&& (Lshortfile ||| Llongfile) = Lshortfile := by decide
  have a12 : Llongfile &&& (Lshortfile ||| Llongfile) = Llongfile := by decide
  refine ⟨?_, ?_, ?_, ?_, ?_, ?_, ?_⟩ <;>
    simp only [Nat.and_distrib_right, a1, a2, a3, a4, a5, a6, a7, a8, a9, a10, a11, a12,
      Nat.or_zero] <;>
    simp [lor_eq_zero_iff, Lshortfile, Llongfile]

/-- Headers rendered with both file flags equal headers rendered with the
short-file flag alone. -/
theorem formatHeader_shortlong (f : Nat) (pre : List Nat) (t : GoTime)
    (file : List Nat) (line : Int) :
    formatHeader (f ||| Lshortfile ||| Llongfile) [] pre t file line
      = formatHeader (f ||| Lshortfile) [] pre t file line := by
  obtain ⟨h1, h2, h3, h4, h5, h6a, h6b⟩ := flag_tests_shortlong f
  have hdate : dateField (f ||| Lshortfile ||| Llongfile) t = dateField (f ||| Lshortfile) t := by
    unfold dateField
    rw [h4]
  have htime : timeField (f ||| Lshortfile ||| Llongfile) t = timeField (f ||| Lshortfile) t := by
    unfold timeField
    rw [h4, h3]
  have hfile : fileField (f ||| Lshortfile ||| Llongfile) file line
      = fileField (f ||| Lshortfile) file line := by
    unfold fileField
    rw [h5]
  rw [formatHeader_decomp, formatHeader_decomp, h1, h2, hdate, htime, hfile,
    if_pos h6a, if_pos h6b]

/-- Call-site resolution behaves identically with both file flags and with
the short-file flag alone. -/
theorem resolveCaller_shortlong (f : Nat) (caller : Option (List Nat × Int)) :
    resolveCaller (f ||| Lshortfile ||| Llongfile) caller
      = resolveCaller (f ||| Lshortfile) caller := by
  obtain ⟨_, _, _, _, _, h6a, h6b⟩ := flag_tests_shortlong f
  unfold resolveCaller
  rw [if_pos h6a, if_pos h6b]

/-- C5: the header is the severity label followed by the fields in the
fixed order date, then time (microseconds appended when the microsecond
flag is set, which forces time rendering even without the time flag),
then file:line; each field is present iff its flag (or an implying flag)
is set, and an omitted field contributes zero bytes with no stray
separators. -/
theorem C5_header_fields (flag : Nat) (buf pre : List Nat) (t : GoTime)
    (file : List Nat) (line : Int) :
    formatHeader flag buf pre t file line =
      buf ++ pre
        ++ (if flag &&& Ldate ≠ 0 then dateField flag t else [])
        ++ (if flag &&& (Ltime ||| Lmicroseconds) ≠ 0 then timeField flag t else [])
        ++ (if flag &&& (Lshortfile ||| Llongfile) ≠ 0 then fileField flag file line else []) :=
  formatHeader_decomp flag buf pre t file line

/-- C8: for every logger state, timestamp, resolved call site and message,
output produced with both the short-file and long-file flags enabled is
identical to output produced with the short-file flag alone, the other
flags and fields held equal. -/
theorem C8_shortfile_overrides_longfile (lv f o : Nat) (bf : List Nat) (w : Writer)
    (now : GoTime) (caller : Option (List Nat × Int)) (s pre : List Nat) :
    (Logger.Output { level := lv, flag := f ||| Lshortfile ||| Llongfile, out := o, buf := bf }
        w now caller s pre).writer
      = (Logger.Output { level := lv, flag := f ||| Lshortfile, out := o, buf := bf }
        w now caller s pre).writer ∧
    (Logger.Output { level := lv, flag := f ||| Lshortfile ||| Llongfile, out := o, buf := bf }
        w now caller s pre).err
      = (Logger.Output { level := lv, flag := f ||| Lshortfile, out := o, buf := bf }
        w now caller s pre).err ∧
    (Logger.Output { level := lv, flag := f ||| Lshortfile ||| Llongfile, out := o, buf := bf }
        w now caller s pre).logger.buf
      = (Logger.Output { level := lv, flag := f ||| Lshortfile, out := o, buf := bf }
        w now caller s pre).logger.buf ∧
    (Logger.Output { level := lv, flag := f ||| Lshortfile ||| Llongfile, out := o, buf := bf }
        w now caller s pre).callerCalls
      = (Logger.Output { level := lv, flag := f ||| Lshortfile, out := o, buf := bf }
        w now caller s pre).callerCalls := by
  refine ⟨?_, ?_, ?_, ?_⟩ <;>
    (simp only [Logger.Output]
     rw [resolveCaller_shortlong]
     try rw [formatHeader_shortlong])

/-- C1 witness: the amended fatal-termination contrast at concrete inputs. -/
theorem C1_fatal_termination_witness :
    (Logger.Fatal L0 W0 T0 none [102]).exits = false ∧
    (Logger.Fatalf L0 W0 T0 none [102]).exits = false ∧
    (Logger.Fatalln L0 W0 T0 none [102]).exits = false ∧
    (Fatal L0 W0 T0 none [102]).writer = (Logger.Output L0 W0 T0 none [102] preFatal).writer ∧
    (Fatal L0 W0 T0 none [102]).exits = true ∧
    (Fatalf L0 W0 T0 none [102]).exits = true ∧
    (Fatalln L0 W0 T0 none [102]).exits = true :=
  C1_fatal_termination L0 W0 T0 none [102] (by decide)

/-- C3 counterexample: a body already ending in two newlines is emitted
unchanged, so the emitted line ends in two newlines, not exactly one. -/
theorem C3_counterexample :
    (Logger.Output L0 W0 T0 none [97, 10, 10] []).writer.history = [[97, 10, 10]] ∧
    ¬ endsInOneNewline [97, 10, 10] :=
  ⟨rfl, fun h => h.2 rfl⟩

/-- C3 amended: the emitted line always ends in a newline; exactly one
newline byte is appended when the body is empty or does not already end
in one (never more than one), and no newline is appended when the body
already ends in one, so a body ending in several newlines is emitted
unchanged. -/
theorem C3_newline_law (l : Logger) (w : Writer) (now : GoTime)
    (caller : Option (List Nat × Int)) (s pre : List Nat) :
    (l.Output w now caller s pre).writer.history
        = w.history ++ [(l.Output w now caller s pre).logger.buf] ∧
    (l.Output w now caller s pre).logger.buf.getLast? = some 10 ∧
    ((s = [] ∨ s.getLast? ≠ some 10) →
      (l.Output w now caller s pre).logger.buf
        = (formatHeader l.flag [] pre now (resolveCaller l.flag caller).1.1
            (resolveCaller l.flag caller).1.2 ++ s) ++ [10]) ∧
    (s.getLast? = some 10 →
      (l.Output w now caller s pre).logger.buf
        = formatHeader l.flag [] pre now (resolveCaller l.flag caller).1.1
            (resolveCaller l.flag caller).1.2 ++ s) := by
  have hb := Output_buf l w now caller s pre
  by_cases h : s.length = 0 ∨ s.getLast? ≠ some 10
  · rw [if_pos h] at hb
    refine ⟨(Output_history l w now caller s pre).1, ?_, fun _ => hb, ?_⟩
    · rw [hb, List.getLast?_append]
      rfl
    · intro hs
      rcases h with h | h
      · rw [List.length_eq_zero] at h
        subst h
        simp at hs
      · exact absurd hs h
  · rw [if_neg h] at hb
    push_neg at h
    obtain ⟨h1, h2⟩ := h
    refine ⟨(Output_history l w now caller s pre).1, ?_, ?_, fun _ => hb⟩
    · rw [hb, List.getLast?_append, h2]
      rfl
    · intro hs
      rcases hs with hs | hs
      · subst hs
        simp at h1
      · exact absurd h2 hs

/-- C3 witness: the newline law at a concrete body without a trailing
newline. -/
theorem C3_newline_law_witness :
    (Logger.Output L0 W0 T0 none [97] []).writer.history
        = W0.history ++ [(Logger.Output L0 W0 T0 none [97] []).logger.buf] ∧
    (Logger.Output L0 W0 T0 none [97] []).logger.buf.getLast? = some 10 ∧
    (Logger.Output L0 W0 T0 none [97] []).logger.buf
        = (formatHeader L0.flag [] [] T0 (resolveCaller L0.flag none).1.1
            (resolveCaller L0.flag none).1.2 ++ [97]) ++ [10] :=
  ⟨(C3_newline_law L0 W0 T0 none [97] []).1,
   (C3_newline_law L0 W0 T0 none [97] []).2.1,
   (C3_newline_law L0 W0 T0 none [97] []).2.2.1 (Or.inr (by decide))⟩

/-- With any width at most one, the itoa loop renders the plain
non-zero-padded decimal of a nonnegative value. -/
theorem itoaLoop_dec (n : Nat) : ∀ (w : Int) (acc : List Nat), w ≤ 1 →
    itoaLoop (n : Int) w acc = specDecimal n ++ acc := by
  induction n using Nat.strong_induction_on with
  | _ n ih =>
    intro w acc hw
    by_cases h10 : n < 10
    · rw [itoaLoop, if_neg (by omega)]
      have hv : ((48 + (n : Int)) % 256).toNat = 48 + n := by omega
      rw [hv]
      rw [specDecimal, if_pos h10]
      rfl
    · rw [itoaLoop, if_pos (by left; omega)]
      have htd : (n : Int).tdiv 10 = ((n / 10 : Nat) : Int) := (Int.ofNat_tdiv n 10).symm
      rw [htd]
      have hdig : ((48 + (n : Int) - ((n / 10 : Nat) : Int) * 10) % 256).toNat = 48 + n % 10 := by
        omega
      rw [hdig]
      rw [ih (n / 10) (by omega) (w - 1) _ (by omega)]
      conv_rhs => rw [specDecimal, if_neg h10]
      simp [List.append_assoc]

/-- If no byte at a positive index up to i is a slash, the short-file scan
leaves the file unchanged. -/
theorem shortLoop_no_slash (file : List Nat) (i : Nat)
    (h : ∀ k, k ≤ i → 1 ≤ k → file.getD k 0 ≠ 47) :
    shortLoop file i = file := by
  induction i with
  | zero => rfl
  | succ n ih =>
    have hne := h (n + 1) le_rfl (by omega)
    simp only [shortLoop, if_neg hne]
    exact ih fun k hk h1 => h k (by omega) h1

/-- If the byte at positive index j is a slash and no later index up to i
holds one, the short-file scan cuts right after j. -/
theorem shortLoop_found (file : List Nat) (i j : Nat)
    (hj1 : 1 ≤ j) (hji : j ≤ i) (h47 : file.getD j 0 = 47)
    (hmax : ∀ k, k ≤ i → j < k → file.getD k 0 ≠ 47) :
    shortLoop file i = file.drop (j + 1) := by
  induction i with
  | zero => omega
  | succ n ih =>
    rcases Nat.eq_or_lt_of_le hji with he | hlt
    · simp only [shortLoop, if_pos (he ▸ h47)]
      rw [he]
    · have hne := hmax (n + 1) le_rfl (by omega)
      simp only [shortLoop, if_neg hne]
      exact ih (by omega) fun k hk hjk => hmax k (by omega) hjk

/-- C6 counterexample: for the path "/a.go", whose only separator is its
first byte, the header renders the full string, not the segment after the
last separator as the claim defines it. -/
theorem C6_counterexample :
    shortFile [47, 97, 46, 103, 111] = [47, 97, 46, 103, 111] ∧
    specFinalSegment [47, 97, 46, 103, 111] = [97, 46, 103, 111] ∧
    formatHeader Lshortfile [] [] T0 [47, 97, 46, 103, 111] 7
      = [47, 97, 46, 103, 111, 58, 55, 58, 32] ∧
    ([47, 97, 46, 103, 111] : List Nat) ≠ [97, 46, 103, 111] := by
  refine ⟨by decide, by decide, ?_, by decide⟩
  have h7 : itoaLoop 7 (-1) [] = [55] := by
    rw [itoaLoop]
    decide
  have c1 : Lshortfile &&& (Ldate ||| Ltime ||| Lmicroseconds) = 0 := by decide
  have c2 : Lshortfile &&& (Lshortfile ||| Llongfile) ≠ 0 := by decide
  have c3 : Lshortfile &&& Lshortfile ≠ 0 := by decide
  simp [formatHeader, itoa, h7, c1, c2, c3]
  decide

/-- C6 amended: with the short-file flag, the header renders the suffix
after the last separator that occurs at a positive index; when every
separator (if any) sits at index zero, the full string is used; the line
number renders as a non-zero-padded decimal. -/
theorem C6_shortfile_segment :
    (∀ (file : List Nat) (j : Nat), 1 ≤ j → j < file.length → file.getD j 0 = 47 →
      (∀ k, k < file.length → j < k → file.getD k 0 ≠ 47) →
      shortFile file = file.drop (j + 1)) ∧
    (∀ file : List Nat, (∀ j, j < file.length → 1 ≤ j → file.getD j 0 ≠ 47) →
      shortFile file = file) ∧
    (∀ n : Nat, itoa [] (n : Int) (-1) = specDecimal n) := by
  refine ⟨?_, ?_, ?_⟩
  · intro file j hj1 hjlen h47 hmax
    unfold shortFile
    refine shortLoop_found file _ j hj1 (by omega) h47 ?_
    intro k hk hjk
    exact hmax k (by omega) hjk
  · intro file h
    unfold shortFile
    refine shortLoop_no_slash file _ ?_
    intro k hk h1
    exact h k (by omega) h1
  · intro n
    unfold itoa
    rw [itoaLoop_dec n (-1) [] (by norm_num)]
    simp

/-- C6 witness: the scan cuts after the slash of "a/b", keeps "/a" whole,
and renders line 7 as the plain decimal 55. -/
theorem C6_shortfile_segment_witness :
    shortFile [97, 47, 98] = ([97, 47, 98] : List Nat).drop 2 ∧
    shortFile [47, 97] = [47, 97] ∧
    itoa [] ((7 : Nat) : Int) (-1) = specDecimal 7 :=
  ⟨C6_shortfile_segment.1 [97, 47, 98] 1 (by decide) (by decide) (by decide) (by decide),
   C6_shortfile_segment.2.1 [47, 97] (by decide),
   C6_shortfile_segment.2.2 7⟩

/-- C7 counterexample: itoa at width -1 on the negative input -1 appends
the single byte 47, not the digit 48. -/
theorem C7_counterexample : itoa [] (-1) (-1) = [47] ∧ (47 : Nat) ≠ 48 := by
  constructor
  · unfold itoa
    rw [itoaLoop]
    decide
  · decide

/-- For a positive width, the itoa loop renders the zero-padded decimal of
a value that fits in that many digits. -/
theorem itoaLoop_pad : ∀ (w : Nat), 1 ≤ w → ∀ (n : Nat) (acc : List Nat), n < 10 ^ w →
    itoaLoop (n : Int) (w : Int) acc = specPadded w n ++ acc := by
  intro w
  induction w with
  | zero => omega
  | succ m ih =>
    intro _ n acc hn
    by_cases hm : m = 0
    · subst hm
      have hn10 : n < 10 := by simpa using hn
      rw [itoaLoop, if_neg (by push_cast; simp only [or_false]; omega)]
      have hv : ((48 + (n : Int)) % 256).toNat = 48 + n := by omega
      rw [hv]
      simp [specPadded, Nat.mod_eq_of_lt hn10, Nat.div_eq_of_lt hn10]
    · rw [itoaLoop, if_pos (by right; push_cast; omega)]
      have htd : (n : Int).tdiv 10 = ((n / 10 : Nat) : Int) := (Int.ofNat_tdiv n 10).symm
      rw [htd]
      have hdig : ((48 + (n : Int) - ((n / 10 : Nat) : Int) * 10) % 256).toNat = 48 + n % 10 := by
        omega
      rw [hdig]
      have hw1 : ((m + 1 : Nat) : Int) - 1 = (m : Int) := by push_cast; ring
      rw [hw1]
      have hnd : n / 10 < 10 ^ m := by
        rw [Nat.div_lt_iff_lt_mul (by norm_num)]
        calc n < 10 ^ (m + 1) := hn
        _ = 10 ^ m * 10 := by ring
      rw [ih (by omega) (n / 10) _ hnd]
      simp [specPadded, List.append_assoc]

/-- C7 amended: on a negative input with width -1, itoa terminates and
appends exactly one byte, the Go byte value of 48 + i, which is the digit
48 only when i is a multiple of 256; on a nonnegative input that fits,
positive widths render the zero-padded decimal of exactly that many
digits (the header uses widths 4, 2 and 6). -/
theorem C7_itoa_rendering :
    (∀ i : Int, i < 0 → itoa [] i (-1) = [((48 + i) % 256).toNat]) ∧
    (∀ w n : Nat, 1 ≤ w → n < 10 ^ w → itoa [] (n : Int) (w : Int) = specPadded w n) ∧
    (∀ w n : Nat, (specPadded w n).length = w) := by
  refine ⟨?_, ?_, ?_⟩
  · intro i hi
    unfold itoa
    rw [itoaLoop, if_neg (by omega)]
    rfl
  · intro w n h1 hn
    unfold itoa
    rw [itoaLoop_pad w h1 n [] hn]
    simp
  · intro w
    induction w with
    | zero => intro n; rfl
    | succ m ih => intro n; simp [specPadded, ih]

/-- C7 witness: itoa on -5 at width -1 gives the single byte 43, and width
2 renders 5 as the two zero-padded digits of specPadded. -/
theorem C7_itoa_rendering_witness :
    itoa [] (-5) (-1) = [((48 + (-5 : Int)) % 256).toNat] ∧
    itoa [] ((5 : Nat) : Int) ((2 : Nat) : Int) = specPadded 2 5 :=
  ⟨C7_itoa_rendering.1 (-5) (by norm_num),
   C7_itoa_rendering.2.1 2 5 (by norm_num) (by norm_num)⟩

end GemLog
